import Mathlib

/-!
Verification of the Sparkify ETL pipeline (`etl.py`) against its
natural-language specification.  The Python source is shallowly embedded:
pandas dataframe operations become list operations, the psycopg2 cursor
becomes an abstract lookup function plus explicit row-set outputs, and
per-file failure becomes `Except`.
-/

/-- Embedding of Python `int(s)` as used at etl.py line 134 on `row.userId`,
restricted to the values that occur (decimal digit strings); `none` models a
raised `ValueError` (missing field / non-numeric string). -/
def parseDigits : List Char → Nat → Option Nat
  | [], acc => some acc
  | c :: cs, acc => if c.isDigit then parseDigits cs (10 * acc + (c.toNat - 48)) else none

/-- Conversion of a possibly-missing `userId` value by Python `int()`:
fails on a missing value (pandas NaN) and on any non-digit string. -/
def pyInt : Option String → Option Int
  | none => none
  | some s =>
    match s.toList with
    | [] => none
    | c :: cs => (parseDigits (c :: cs) 0).map Int.ofNat

/-- One line of a log JSON file (etl.py line 105).  Fields that pandas would
hold as NaN when absent are `Option`; `ts` is epoch milliseconds. -/
structure LogRecord where
  userId : Option String
  firstName : Option String
  lastName : Option String
  gender : Option String
  level : Option String
  page : Option String
  ts : Nat
  song : String
  artist : String
  length : ℚ
  sessionId : Nat
  location : Option String
  userAgent : Option String
deriving DecidableEq, Repr

/-- The two filters of etl.py lines 106-107:
`df = df[df.userId != '']` then `df = df[df.page == 'NextSong']`.
A missing userId (NaN) satisfies `!= ''` in pandas, so it is kept. -/
def filterRecords (l : List LogRecord) : List LogRecord :=
  (l.filter fun r => r.userId != some "").filter fun r => r.page == some "NextSong"

/-- Gregorian date (year, month, day) of a day count since 1970-01-01,
embedding the calendar arithmetic pandas performs in `pd.to_datetime`
(Hinnant civil-from-days, specialised to nonnegative day counts). -/
def civilFromDays (z0 : Nat) : Nat × Nat × Nat :=
  let z := z0 + 719468
  let era := z / 146097
  let doe := z % 146097
  let yoe := (doe - doe / 1460 + doe / 36524 - doe / 146096) / 365
  let y := yoe + era * 400
  let doy := doe - (365 * yoe + yoe / 4 - yoe / 100)
  let mp := (5 * doy + 2) / 153
  let d := doy - (153 * mp + 2) / 5 + 1
  let m := if mp < 10 then mp + 3 else mp - 9
  (if m ≤ 2 then y + 1 else y, m, d)

/-- Gregorian leap-year test. -/
def isLeap (y : Nat) : Bool :=
  y % 4 == 0 && (y % 100 != 0 || y % 400 == 0)

/-- Days since 1970-01-01 of a Gregorian date (valid for years ≥ 1970). -/
def daysFromCivil (y m d : Nat) : Nat :=
  let yA := if m ≤ 2 then y - 1 else y
  let era := yA / 400
  let yoe := yA % 400
  let mp := if m > 2 then m - 3 else m + 9
  let doy := (153 * mp + 2) / 5 + d - 1
  let doe := yoe * 365 + yoe / 4 - yoe / 100 + doy
  era * 146097 + doe - 719468

/-- Days in the year strictly before month `m` (1-based). -/
def daysBeforeMonth (leap : Bool) (m : Nat) : Nat :=
  let base :=
    match m with
    | 1 => 0 | 2 => 31 | 3 => 59 | 4 => 90 | 5 => 120 | 6 => 151
    | 7 => 181 | 8 => 212 | 9 => 243 | 10 => 273 | 11 => 304 | _ => 334
  if leap && m > 2 then base + 1 else base

/-- Number of ISO-8601 weeks in year `y` (52 or 53). -/
def isoWeeksInYear (y : Nat) : Nat :=
  let jan1wd := (daysFromCivil y 1 1 + 3) % 7 + 1
  if jan1wd == 4 || (isLeap y && jan1wd == 3) then 53 else 52

/-- ISO-8601 week number from a year, 1-based day of year, and ISO weekday,
embedding `strftime` with the ISO week directive (etl.py line 85). -/
def isoWeek (y doy wd : Nat) : Nat :=
  let w := (10 + doy - wd) / 7
  if w == 0 then isoWeeksInYear (y - 1)
  else if w > isoWeeksInYear y then 1
  else w

/-- One row of the time dimension, columns in the order left after
`df_time.drop` at etl.py line 91.  `start_time` keeps the raw epoch
milliseconds that the datetime value represents. -/
structure TimeRow where
  start_time : Nat
  hour : Nat
  day : Nat
  week : Nat
  month : Nat
  year : Nat
  week_day : Nat
deriving DecidableEq, Repr

/-- Timestamp decomposition of `prepare_log_df` (etl.py lines 77-91):
hour/day/month/year via the calendar, `week` via the ISO week directive,
and `week_day` via pandas `.dt.weekday` (Monday = 0, ..., Sunday = 6). -/
def decomposeTs (ms : Nat) : TimeRow :=
  let days := ms / 86400000
  let ymd := civilFromDays days
  { start_time := ms
    hour := ms / 3600000 % 24
    day := ymd.2.2
    week := isoWeek ymd.1 (daysBeforeMonth (isLeap ymd.1) ymd.2.1 + ymd.2.2) ((days + 3) % 7 + 1)
    month := ymd.2.1
    year := ymd.1
    week_day := (days + 3) % 7 }

/-- One row of the user dimension: the projection of etl.py line 92,
values passed through unconverted. -/
structure UserRow where
  userId : Option String
  firstName : Option String
  lastName : Option String
  gender : Option String
  level : Option String
deriving DecidableEq, Repr

/-- Projection `df[['userId','firstName','lastName','gender','level']]`. -/
def userRowOf (r : LogRecord) : UserRow :=
  ⟨r.userId, r.firstName, r.lastName, r.gender, r.level⟩

/-- Time-dimension rows a log file yields: one per retained record. -/
def timeRowsOf (l : List LogRecord) : List TimeRow :=
  (filterRecords l).map fun r => decomposeTs r.ts

/-- User-dimension rows a log file yields: one per retained record. -/
def userRowsOf (l : List LogRecord) : List UserRow :=
  (filterRecords l).map userRowOf

/-- The song/artist dimension lookup (etl.py lines 123-124): the cursor
executes the lookup statement on (artist, song, length) and `fetchone`
returns either one (song_id, artist_id) pair or nothing. -/
def Lookup : Type :=
  String → String → ℚ → Option (String × String)

/-- One songplay fact row, fields in the order of the tuple built at
etl.py lines 133-140. -/
structure SongplayRow where
  start_time : Nat
  user_id : Int
  level : Option String
  song_id : Option String
  artist_id : Option String
  session_id : Nat
  location : Option String
  user_agent : Option String
deriving DecidableEq, Repr

/-- Fact-row construction for one retained record (etl.py lines 120-142):
resolve (song_id, artist_id) through the lookup — both `none` on a miss —
then build the tuple; `int(row.userId)` raising is the error case. -/
def buildFact (lookup : Lookup) (r : LogRecord) : Except Unit SongplayRow :=
  let ids : Option String × Option String :=
    match lookup r.artist r.song r.length with
    | some (s, a) => (some s, some a)
    | none => (none, none)
  match pyInt r.userId with
  | some uid => Except.ok ⟨r.ts, uid, r.level, ids.1, ids.2, r.sessionId, r.location, r.userAgent⟩
  | none => Except.error ()

/-- The fact loop of etl.py lines 120-142: rows in order, aborting the file
at the first record whose construction raises. -/
def mapFacts (lookup : Lookup) : List LogRecord → Except Unit (List SongplayRow)
  | [] => Except.ok []
  | r :: rs =>
    match buildFact lookup r with
    | Except.error e => Except.error e
    | Except.ok fact =>
      match mapFacts lookup rs with
      | Except.error e => Except.error e
      | Except.ok rest => Except.ok (fact :: rest)

/-- The three row sets a log file yields. -/
structure LogOutput where
  timeRows : List TimeRow
  userRows : List UserRow
  factRows : List SongplayRow
deriving DecidableEq, Repr

/-- Whole-file behaviour of `process_log_file` (etl.py lines 96-143): filter,
shape the time and user rows, then build fact rows; an unhandled exception
anywhere leaves the file's work uncommitted (`Except.error`). -/
def processLogFile (lookup : Lookup) (records : List LogRecord) : Except Unit LogOutput :=
  match mapFacts lookup (filterRecords records) with
  | Except.error e => Except.error e
  | Except.ok facts => Except.ok ⟨timeRowsOf records, userRowsOf records, facts⟩

/-- The single JSON record of a song file (etl.py line 43 and spec §6). -/
structure SongRecord where
  song_id : String
  title : String
  artist_id : String
  year : Int
  duration : ℚ
  artist_name : String
  artist_location : String
  artist_longitude : ℚ
  artist_latitude : ℚ
deriving DecidableEq, Repr

/-- One load executed by the song pass: statement index 0 with the song
projection, or statement index 1 with the artist projection. -/
inductive SongFileLoad where
  | songRow (v : String × String × String × Int × ℚ)
  | artistRow (v : String × String × String × ℚ × ℚ)
deriving DecidableEq, Repr

/-- Behaviour of `process_song_file` (etl.py lines 32-63): project the song
columns and the artist columns of the file's record and execute the song
insert then the artist insert, in that order (lines 59 and 62). -/
def processSongFile (r : SongRecord) : List SongFileLoad :=
  [SongFileLoad.songRow (r.song_id, r.title, r.artist_id, r.year, r.duration),
   SongFileLoad.artistRow (r.artist_id, r.artist_name, r.artist_location,
     r.artist_longitude, r.artist_latitude)]

/-- Statement resource paths read by one invocation of `process_song_file`
or `process_log_file`: lines 41 and 108 read every path of
`list_query_path` once per call. -/
def perFileStatementReads (list_query_path : List String) : List String :=
  list_query_path

/-- Statement resource reads of a whole pass: `process_data` (line 173)
invokes the per-file function once per data file, and each invocation
performs its own reads. -/
def passStatementReads (list_query_path : List String) (files : List String) : List String :=
  (files.map fun _ => perFileStatementReads list_query_path).flatten

/-- Outcome of one pass of `process_data` (etl.py lines 146-177):
the row batches committed (one per fully processed file, in order), the
files on which the per-file function was invoked, and the error that ended
the pass, if any. -/
structure RunResult (β ε : Type) where
  committed : List β
  attempted : List String
  failure : Option ε
deriving Repr

/-- The loop of etl.py lines 172-175: process a file, commit, move on; an
exception from the per-file function propagates, ending the pass with the
committed work of the earlier files intact and the rest untouched. -/
def processData {β ε : Type} (step : String → Except ε β) : List String → RunResult β ε
  | [] => ⟨[], [], none⟩
  | f :: fs =>
    match step f with
    | Except.error e => ⟨[], [f], some e⟩
    | Except.ok b =>
      let r := processData step fs
      ⟨b :: r.committed, f :: r.attempted, r.failure⟩

/-! Spec-modelled reference definitions, for claims that compare the code
against the specification's own words. -/

/-- Modelled from the spec: the retention predicate of §4.3 as claim C1
states it — userId present and non-empty, and page equal to the literal
playback page-type value. -/
def specRetained (r : LogRecord) : Prop :=
  (∃ s, r.userId = some s ∧ s ≠ "") ∧ r.page = some "NextSong"

/-- Modelled from the spec: the ISO-8601 day-of-week number of an
epoch-millisecond timestamp, Monday = 1 through Sunday = 7; day 0 of the
epoch (1970-01-01) is a Thursday, ISO weekday 4. -/
def refISOWeekday (ms : Nat) : Nat :=
  (ms / 86400000 + 3) % 7 + 1

/-- Modelled from the spec: the reference calendar month (1-12) of an
epoch-millisecond timestamp, i.e. the month of its Gregorian civil date. -/
def refMonth (ms : Nat) : Nat :=
  (civilFromDays (ms / 86400000)).2.1

/-! Concrete example data used by scenario claims and witnesses. -/

/-- A fully populated `NextSong` log record used as the base of the
concrete examples. -/
def baseRec : LogRecord :=
  { userId := some "8", firstName := some "Kaylee", lastName := some "Summers",
    gender := some "F", level := some "free", page := some "NextSong",
    ts := 0, song := "Intro", artist := "Survivor", length := 200,
    sessionId := 139, location := some "Phoenix", userAgent := some "Mozilla" }

/-- A lookup on which every (artist, song, length) triple misses. -/
def missLookup : Lookup := fun _ _ _ => none

/-! Helper lemmas shared across claims. -/

/-- If the fact stage raises on some retained record, the whole fact loop
ends in the error. -/
theorem mapFacts_err (lookup : Lookup) (r : LogRecord) (l : List LogRecord)
    (hmem : r ∈ l) (herr : buildFact lookup r = Except.error ()) :
    mapFacts lookup l = Except.error () := by
  induction l with
  | nil => cases hmem
  | cons x xs ih =>
    rcases List.mem_cons.mp hmem with h | h
    · subst h
      simp [mapFacts, herr]
    · cases hx : buildFact lookup x with
      | error e => cases e; simp [mapFacts, hx]
      | ok b => simp [mapFacts, hx, ih h]

/-- A file one of whose retained records has an unconvertible userId ends
in the error, committing nothing. -/
theorem processLogFile_err (lookup : Lookup) (file : List LogRecord)
    (r : LogRecord) (hmem : r ∈ filterRecords file)
    (hbad : pyInt r.userId = none) :
    processLogFile lookup file = Except.error () := by
  have herr : buildFact lookup r = Except.error () := by
    simp [buildFact, hbad]
  simp [processLogFile, mapFacts_err lookup r (filterRecords file) hmem herr]

/-! Claim C7: song file shaping. -/

/-- The song record of the spec's scenario. -/
def c7SongRecord : SongRecord :=
  { song_id := "S1", title := "T", artist_id := "A1", year := 2000,
    duration := 180.5, artist_name := "N", artist_location := "L",
    artist_longitude := 1.0, artist_latitude := 2.0 }

/-- C7: every well-formed song file yields exactly one song-dimension row and
one artist-dimension row, field-mapped from the record and loaded in the
order song row then artist row; on the scenario record the rows are
(S1,T,A1,2000,180.5) and (A1,N,L,1.0,2.0). -/
theorem song_shaper_field_mapping :
    (∀ r : SongRecord, processSongFile r =
      [SongFileLoad.songRow (r.song_id, r.title, r.artist_id, r.year, r.duration),
       SongFileLoad.artistRow (r.artist_id, r.artist_name, r.artist_location,
         r.artist_longitude, r.artist_latitude)]) ∧
    processSongFile c7SongRecord =
      [SongFileLoad.songRow ("S1", "T", "A1", 2000, 180.5),
       SongFileLoad.artistRow ("A1", "N", "L", 1.0, 2.0)] :=
  ⟨fun _ => rfl, rfl⟩

/-! Claim C8: the three-line log file scenario. -/

/-- First scenario line: a NextSong event with non-empty userId. -/
def c8Rec1 : LogRecord := baseRec

/-- Second scenario line: another NextSong event with non-empty userId. -/
def c8Rec2 : LogRecord := { baseRec with userId := some "10", ts := 3600000 }

/-- Third scenario line: a navigation event. -/
def c8Rec3 : LogRecord := { baseRec with page := some "Home", ts := 7200000 }

/-- C8: a log file of two NextSong events with non-empty userId and one
navigation event yields exactly 2 time rows, 2 user rows and 2 fact rows. -/
theorem three_line_log_row_counts :
    Except.map (fun o => (o.timeRows.length, o.userRows.length, o.factRows.length))
      (processLogFile missLookup [c8Rec1, c8Rec2, c8Rec3]) = Except.ok (2, 2, 2) := by
  rfl

/-! Claim C3: time decomposition versus ISO conventions. -/

/-- C3 counterexample: at ts = 0 (1970-01-01, a Thursday) the code's weekday
field is 3 (pandas zero-based Monday numbering) while the ISO-8601 weekday
is 4, so the emitted weekday does not equal the ISO reference weekday. -/
theorem weekday_not_iso_at_epoch :
    (decomposeTs 0).week_day = 3 ∧ refISOWeekday 0 = 4 ∧
      (decomposeTs 0).week_day ≠ refISOWeekday 0 := by
  refine ⟨rfl, rfl, ?_⟩
  decide

/-- C3 amended: the decomposition is deterministic in ts; over the whole
epoch-millisecond domain its weekday field is the ISO reference weekday
minus one (zero-based Monday numbering), and its month field equals the
reference Gregorian month. -/
theorem time_decomposition_iso_consistency (ms : Nat) :
    (decomposeTs ms).week_day + 1 = refISOWeekday ms ∧
      (decomposeTs ms).month = refMonth ms :=
  ⟨rfl, rfl⟩

/-! Claim C1: the log filter versus the spec's retention predicate. -/

/-- A NextSong record whose userId field is missing (pandas NaN). -/
def c1MissingUserId : LogRecord := { baseRec with userId := none }

/-- C1 counterexample: a record with a missing userId and page NextSong is
not retained under the spec's predicate, yet the code's filter keeps it and
it yields a time row and a user row. -/
theorem missing_userid_retained :
    ¬ specRetained c1MissingUserId ∧
    filterRecords [c1MissingUserId] = [c1MissingUserId] ∧
    timeRowsOf [c1MissingUserId] = [decomposeTs c1MissingUserId.ts] ∧
    userRowsOf [c1MissingUserId] = [userRowOf c1MissingUserId] := by
  refine ⟨?_, rfl, rfl, rfl⟩
  rintro ⟨⟨s, hs, _⟩, _⟩
  simp [c1MissingUserId, baseRec] at hs

/-- C1 amended: the filter retains exactly the records whose userId is not
the empty string — a missing userId is retained, since pandas NaN satisfies
the inequality test — and whose page equals NextSong; the derived row sets
are built only from the retained records. -/
theorem filter_retention_characterisation (l : List LogRecord) (r : LogRecord) :
    r ∈ filterRecords l ↔ r ∈ l ∧ r.userId ≠ some "" ∧ r.page = some "NextSong" := by
  simp only [filterRecords, List.mem_filter, bne_iff_ne, ne_eq, beq_iff_eq, and_assoc]

/-! Claim C2: atomic null-resolution of fact-row ids. -/

/-- C2: for every retained record whose userId converts, a fact row is
produced whose song_id and artist_id are both null (lookup miss) or both
non-null (lookup hit), with every other field taken from the source event;
a lookup miss never aborts the record. -/
theorem fact_row_ids_atomic (lookup : Lookup) (r : LogRecord) (uid : Int)
    (h : pyInt r.userId = some uid) :
    ∃ fact, buildFact lookup r = Except.ok fact ∧
      ((fact.song_id = none ∧ fact.artist_id = none) ∨
        (∃ s a, fact.song_id = some s ∧ fact.artist_id = some a)) ∧
      fact.start_time = r.ts ∧ fact.user_id = uid ∧ fact.level = r.level ∧
      fact.session_id = r.sessionId ∧ fact.location = r.location ∧
      fact.user_agent = r.userAgent := by
  cases hl : lookup r.artist r.song r.length with
  | none =>
    exact ⟨⟨r.ts, uid, r.level, none, none, r.sessionId, r.location, r.userAgent⟩,
      by simp [buildFact, hl, h], Or.inl ⟨rfl, rfl⟩, rfl, rfl, rfl, rfl, rfl, rfl⟩
  | some p =>
    exact ⟨⟨r.ts, uid, r.level, some p.1, some p.2, r.sessionId, r.location, r.userAgent⟩,
      by simp [buildFact, hl, h], Or.inr ⟨p.1, p.2, rfl, rfl⟩, rfl, rfl, rfl, rfl, rfl, rfl⟩

/-- C2 witness: the scenario record under an always-miss lookup. -/
theorem fact_row_ids_atomic_witness :
    ∃ fact, buildFact missLookup baseRec = Except.ok fact ∧
      ((fact.song_id = none ∧ fact.artist_id = none) ∨
        (∃ s a, fact.song_id = some s ∧ fact.artist_id = some a)) ∧
      fact.start_time = baseRec.ts ∧ fact.user_id = 8 ∧ fact.level = baseRec.level ∧
      fact.session_id = baseRec.sessionId ∧ fact.location = baseRec.location ∧
      fact.user_agent = baseRec.userAgent :=
  fact_row_ids_atomic missLookup baseRec 8 (by decide)

/-! Claim C9: idempotence of the filter on already-filtered input. -/

/-- C9: on a record set already restricted to NextSong events with non-empty
userId, the filter retains every record, so re-running the shaper on its own
filtered output yields the same three row sets. -/
theorem filter_idempotent_on_playback (lookup : Lookup) (l : List LogRecord)
    (h : ∀ r ∈ l, r.page = some "NextSong" ∧ ∃ s, r.userId = some s ∧ s ≠ "") :
    filterRecords l = l ∧
      processLogFile lookup (filterRecords l) = processLogFile lookup l := by
  have h1 : List.filter (fun r => r.userId != some "") l = l := by
    rw [List.filter_eq_self]
    intro r hr
    rcases (h r hr).2 with ⟨s, hs, hne⟩
    simp [hs, hne]
  have h2 : filterRecords l = l := by
    unfold filterRecords
    rw [h1, List.filter_eq_self]
    intro r hr
    simp [(h r hr).1]
  exact ⟨h2, by rw [h2]⟩

/-- An already-filtered one-record input for the idempotence witness. -/
def c9Rec : LogRecord := { baseRec with userId := some "42" }

/-- C9 witness: the filter and the shaper are stable on a concrete
already-filtered file. -/
theorem filter_idempotent_on_playback_witness :
    filterRecords [c9Rec] = [c9Rec] ∧
      processLogFile missLookup (filterRecords [c9Rec]) =
        processLogFile missLookup [c9Rec] :=
  filter_idempotent_on_playback missLookup [c9Rec] (by
    intro r hr
    simp only [List.mem_singleton] at hr
    subst hr
    exact ⟨rfl, "42", rfl, by decide⟩)

/-! Claim C10: userId is converted for the fact row, unconverted for the
user row, and an unconvertible userId aborts the file. -/

/-- C10: the user-dimension row carries userId unconverted while the fact
row carries its integer conversion; a retained record whose userId does not
convert makes the whole file's processing fail rather than being skipped. -/
theorem userid_conversion_asymmetry (lookup : Lookup) (file : List LogRecord)
    (r : LogRecord) (hmem : r ∈ filterRecords file) (hbad : pyInt r.userId = none) :
    processLogFile lookup file = Except.error () ∧
    (∀ q : LogRecord, (userRowOf q).userId = q.userId) ∧
    (∀ q : LogRecord, ∀ uid : Int, pyInt q.userId = some uid →
      ∃ fact, buildFact lookup q = Except.ok fact ∧ fact.user_id = uid) := by
  refine ⟨processLogFile_err lookup file r hmem hbad, fun q => rfl, ?_⟩
  intro q uid h
  cases hl : lookup q.artist q.song q.length with
  | none =>
    exact ⟨⟨q.ts, uid, q.level, none, none, q.sessionId, q.location, q.userAgent⟩,
      by simp [buildFact, hl, h], rfl⟩
  | some p =>
    exact ⟨⟨q.ts, uid, q.level, some p.1, some p.2, q.sessionId, q.location, q.userAgent⟩,
      by simp [buildFact, hl, h], rfl⟩

/-- A retained record whose userId value is non-numeric. -/
def c10BadRec : LogRecord := { baseRec with userId := some "Alice" }

/-- C10 witness: a one-record file whose retained record has the userId
value Alice fails as a whole. -/
theorem userid_conversion_asymmetry_witness :
    processLogFile missLookup [c10BadRec] = Except.error () ∧
    (∀ q : LogRecord, (userRowOf q).userId = q.userId) ∧
    (∀ q : LogRecord, ∀ uid : Int, pyInt q.userId = some uid →
      ∃ fact, buildFact missLookup q = Except.ok fact ∧ fact.user_id = uid) :=
  userid_conversion_asymmetry missLookup [c10BadRec] c10BadRec (by decide) (by decide)

/-! Claim C6: per-record lenience on missing fields. -/

/-- A NextSong record with a missing userId field. -/
def c6BadRec : LogRecord := { baseRec with userId := none, ts := 1000 }

/-- A well-formed NextSong record following it in the same file. -/
def c6GoodRec : LogRecord := { baseRec with userId := some "21" }

/-- C6 counterexample: a two-line file whose first record is missing its
userId is aborted as a whole — the well-formed second record is not shaped
and loaded, contradicting the claimed skip-one-record lenience. -/
theorem missing_field_aborts_file :
    filterRecords [c6BadRec, c6GoodRec] = [c6BadRec, c6GoodRec] ∧
      processLogFile missLookup [c6BadRec, c6GoodRec] = Except.error () :=
  ⟨rfl, rfl⟩

/-- A NextSong record with a missing firstName field. -/
def c6NoFirstName : LogRecord := { baseRec with firstName := none }

/-- C6 amended: a record missing a required field is never skipped with a
warning: a missing non-numeric field flows through as a null into the
derived rows, while a retained record with a missing userId aborts the
whole file's processing. -/
theorem missing_field_policy (lookup : Lookup) (file : List LogRecord)
    (r : LogRecord) (hmem : r ∈ filterRecords file) (hbad : r.userId = none) :
    processLogFile lookup file = Except.error () ∧
    (userRowOf c6NoFirstName).firstName = none ∧
    Except.map (fun o => o.userRows) (processLogFile missLookup [c6NoFirstName]) =
      Except.ok [userRowOf c6NoFirstName] := by
  refine ⟨processLogFile_err lookup file r hmem ?_, rfl, rfl⟩
  rw [hbad]
  rfl

/-- C6 witness: the two-line file with the missing-userId record. -/
theorem missing_field_policy_witness :
    processLogFile missLookup [c6BadRec, c6GoodRec] = Except.error () ∧
    (userRowOf c6NoFirstName).firstName = none ∧
    Except.map (fun o => o.userRows) (processLogFile missLookup [c6NoFirstName]) =
      Except.ok [userRowOf c6NoFirstName] :=
  missing_field_policy missLookup [c6BadRec, c6GoodRec] c6BadRec (by decide) (by decide)

/-! Claim C5: statement resource reads per pass. -/

/-- C5 counterexample: a pass over two data files with two statement
resources performs four reads, not one read per resource — the read count
is not independent of the number of files. -/
theorem statement_reads_grow_with_files :
    (passStatementReads ["time.sql", "user.sql"] ["f1.json", "f2.json"]).length = 4 ∧
      (["time.sql", "user.sql"] : List String).length = 2 ∧ (4 : Nat) ≠ 2 :=
  ⟨rfl, rfl, by decide⟩

/-- C5 amended: each statement resource is read once per data file, at the
start of that file's processing, and the loaded text is reused for every
row of that file; the total number of reads in a pass is the number of
files times the number of resources. -/
theorem statement_reads_linear (q files : List String) :
    (passStatementReads q files).length = files.length * q.length := by
  induction files with
  | nil => simp [passStatementReads]
  | cons f fs ih =>
    simp only [passStatementReads, perFileStatementReads, List.map_cons,
      List.flatten_cons, List.length_append, List.length_cons] at ih ⊢
    rw [ih]
    ring

/-! Claim C4: pass abort semantics of the orchestrator. -/

/-- C4: if the per-file step fails on a file, the pass ends there — the
batches of the earlier files stay committed and unchanged, the failing
file contributes nothing, later files are never attempted, and no file is
attempted twice. -/
theorem pass_abort_semantics {β ε : Type} (step : String → Except ε β)
    (g : String → β) (pre post : List String) (failFile : String) (e : ε)
    (hpre : ∀ f ∈ pre, step f = Except.ok (g f))
    (hfail : step failFile = Except.error e) :
    processData step (pre ++ failFile :: post) =
      ⟨List.map g pre, pre ++ [failFile], some e⟩ := by
  revert hpre
  induction pre with
  | nil =>
    intro _
    simp [processData, hfail]
  | cons a as ih =>
    intro hpre
    have ha := hpre a (List.mem_cons_self a as)
    have ih2 := ih fun f hf => hpre f (List.mem_cons_of_mem a hf)
    simp [processData, ha, ih2]

/-- A step function failing exactly on the fifth of ten files. -/
def c4Step (f : String) : Except String (List String) :=
  if f = "f05" then Except.error "load failure" else Except.ok [f]

/-- C4 witness: the spec's scenario — a load failure on file 5 of 10 leaves
files 1-4 committed and files 5-10 unprocessed beyond the failing call. -/
theorem pass_abort_semantics_witness :
    processData c4Step
        (["f01", "f02", "f03", "f04"] ++ "f05" :: ["f06", "f07", "f08", "f09", "f10"]) =
      ⟨List.map (fun f => [f]) ["f01", "f02", "f03", "f04"],
        ["f01", "f02", "f03", "f04"] ++ ["f05"], some "load failure"⟩ :=
  pass_abort_semantics c4Step (fun f => [f]) ["f01", "f02", "f03", "f04"]
    ["f06", "f07", "f08", "f09", "f10"] "f05" "load failure"
    (by intro f hf; fin_cases hf <;> rfl) rfl
